import Mathlib

/-!
Verification development for the router-side WAMP session core
(`crossbar/router/session.py`, class `RouterSession`).

The Python class is shallowly embedded as a pure state machine:

* `Session` mirrors the instance attributes of `RouterSession`
  (`_transport`, `_session_id`, `_pending_session_id`, `_previous_session_id`,
  `_goodbye_sent`, `_pending_auth`, the `auth*` identity fields, the cookie
  store reachable through the transport factory, ...).
* Each handler (`onHello`, `onAuthenticate`, the `onHello_success` /
  `onAuthenticate_success` future callbacks, `welcome`, `onJoin`, `onLeave`,
  `onClose`, `onMessage`, `_swallow_error_and_abort`) becomes a function from
  session state to a `StepRes`: the updated state, the WAMP frames passed to
  `transport.send`, the meta events passed to `service_session.publish`
  (each recording the publishing session's `_session_id` at the moment of the
  publish call, which captures the source's statement order), the transports
  pro-actively closed via `sendClose`, and a flag marking an uncaught Python
  exception (`AttributeError` on a `None` transport, the `raise` in
  `welcome`, a failed `assert`).
* External collaborators that the file only calls through interfaces
  (the per-method `PendingAuth` verifiers, the broker/dealer, serializer
  statistics) are modelled as oracles/flags; each such definition says so in
  its doc string.
-/

namespace Crossbar

/-- Attribute mapping (Python `dict`) used for `authextra`: association list
from keys to optional string values. -/
abbrev AuthExtra := List (String × Option String)

/-- Dictionary update `d[k] = v`: remove any old binding of `k`, append the
new one. -/
def AuthExtra.set (ae : AuthExtra) (k : String) (v : Option String) : AuthExtra :=
  ae.filter (fun p => p.1 != k) ++ [(k, v)]

/-- Membership test `k in d`. -/
def AuthExtra.hasKey (ae : AuthExtra) (k : String) : Bool :=
  ae.any (fun p => p.1 == k)

/-- Dictionary `d.pop(k)`, dropping the binding of `k`. -/
def AuthExtra.del (ae : AuthExtra) (k : String) : AuthExtra :=
  ae.filter (fun p => p.1 != k)

/-- Lookup in an association list with string keys (first binding wins). -/
def lookupKey {α : Type} : List (String × α) → String → Option α
  | [], _ => none
  | (k, v) :: rest, c => if k = c then some v else lookupKey rest c

/-- One authentication binding held by the cookie store for a cookie id:
`(authid, authrole, authmethod, authrealm, authextra)`, exactly the tuple
`getAuth` returns in the source. -/
structure CookieAuth where
  authid : Option String
  authrole : Option String
  authmethod : Option String
  authrealm : Option String
  authextra : Option AuthExtra
deriving DecidableEq

/-- The all-`None` binding written by `setAuth(cbtid, None, None, None, None,
None)` when a cookie authentication is revoked. -/
def CookieAuth.empty : CookieAuth := ⟨none, none, none, none, none⟩

/-- The cookie store reachable as `transport.factory._cookiestore`: the
authentication bindings (`getAuth`/`setAuth`/`delAuth`) and, per cookie id,
the transport protocols currently bound to that cookie (`getProtos`);
transports are identified by a numeric id. The store itself is an external
collaborator; these four operations are the interface the session core uses. -/
structure CookieStore where
  auths : List (String × CookieAuth)
  protos : List (String × List Nat)
deriving DecidableEq

/-- Cookie-store `getAuth(cbtid)` (the source guards it with `exists(cbtid)`;
`none` here plays the role of `exists` returning false). -/
def CookieStore.getAuth (cs : CookieStore) (c : String) : Option CookieAuth :=
  lookupKey cs.auths c

/-- Cookie-store `setAuth(cbtid, ...)`. -/
def CookieStore.setAuth (cs : CookieStore) (c : String) (a : CookieAuth) : CookieStore :=
  { cs with auths := cs.auths.filter (fun p => p.1 != c) ++ [(c, a)] }

/-- Cookie-store `delAuth(cbtid)`. -/
def CookieStore.delAuth (cs : CookieStore) (c : String) : CookieStore :=
  { cs with auths := cs.auths.filter (fun p => p.1 != c) }

/-- Cookie-store `getProtos(cbtid)`. -/
def CookieStore.getProtos (cs : CookieStore) (c : String) : List Nat :=
  (lookupKey cs.protos c).getD []

/-- Per-realm stats configuration (`realm.config["stats"]`); only the trigger
switches are observable to the session core paths modelled here. -/
structure StatsCfg where
  trigger_on_join : Bool
  trigger_on_leave : Bool
deriving DecidableEq

/-- A realm known to the router factory: its role set (`router.has_role`),
whether a service session for meta events is bound (`realm.session`), and the
optional stats configuration. -/
structure Realm where
  roles : List String
  has_service_session : Bool
  stats : Option StatsCfg
deriving DecidableEq

/-- The router factory `self._router_factory`: the realms it hosts
(`realm in factory`, `factory.get(realm)`, `factory[realm]`), the node/worker
identifiers stamped into `authextra`, and the authmethod names contributed by
an optional worker personality (`EXTRA_AUTH_METHODS`). -/
structure RouterFactory where
  realms : List (String × Realm)
  node_id : Option String
  worker_id : Option String
  extra_auth_methods : List String

/-- Lookup of an (optional) realm name in the router factory; `none` realm
names never resolve (`None` is not a key of the factory). -/
def realmLookup (f : RouterFactory) (r : Option String) : Option Realm :=
  r.bind (fun name => lookupKey f.realms name)

/-- The WAMP transport as seen from the session: its pre-authentication
attributes (`_authid`, `_authrole`, `_authmethod`, `_authprovider`,
`_authrealm`, `_authextra`, `_cbtid`), the cookie id parsed from the received
`set-cookie` HTTP header (the result of the `werkzeug` parse in the cookie
branch of `onHello`), the peer string, whether the transport factory has a
cookie store, and a numeric identity used for the `proto != self._transport`
comparison. -/
structure Transport where
  id : Nat
  authid : Option String
  authrole : Option String
  authmethod : Option String
  authprovider : Option String
  authrealm : Option String
  authextra : Option AuthExtra
  cbtid : Option String
  headers_cbtid : Option String
  peer : String
  has_cookiestore : Bool
deriving DecidableEq

/-- The payload of an `Accept` disposition (`autobahn.wamp.types.Accept`). -/
structure AcceptInfo where
  realm : Option String
  authid : Option String
  authrole : Option String
  authmethod : Option String
  authprovider : Option String
  authextra : Option AuthExtra
deriving DecidableEq

/-- Disposition of an authentication step: `Accept`, `Challenge` or `Deny`
(`autobahn.wamp.types`). -/
inductive AuthResult where
  | accept (info : AcceptInfo)
  | challenge (method : String)
  | deny (reason : String) (message : Option String)
deriving DecidableEq

/-- True exactly for a `Challenge` disposition. -/
def AuthResult.isChallenge : AuthResult → Bool
  | .challenge _ => true
  | _ => false

/-- True exactly for an `Accept` disposition. -/
def AuthResult.isAccept : AuthResult → Bool
  | .accept _ => true
  | _ => false

/-- Modelled from the spec: the per-method `PendingAuth` verifiers
(`crossbar.router.auth`, an external collaborator of this file). The spec
gives their capability set `hello(realm, details) -> Accept|Challenge|Deny`
and `authenticate(signature) -> Accept|Deny`; the dispositions themselves are
parameters of the model, keyed by the method name. -/
structure AuthOracle where
  helloResult : String → Option String → AuthResult
  authenticateResult : String → String → AuthResult

/-- Session details as assembled in `welcome` (resume fields are inert
constants in the source and omitted; serializer/transport reporting is
external). -/
structure SessionDetails where
  realm : Option String
  session : Option Nat
  authid : Option String
  authrole : Option String
  authmethod : Option String
  authprovider : Option String
  authextra : AuthExtra
deriving DecidableEq

/-- The WAMP frames the session core hands to `transport.send`. -/
inductive Frame where
  | welcome (session : Option Nat) (realm : Option String) (authid : Option String)
      (authrole : Option String) (authmethod : Option String)
      (authprovider : Option String) (authextra : AuthExtra)
  | challenge (method : String)
  | abort (reason : String) (message : Option String)
  | goodbye
deriving DecidableEq

/-- True exactly for a WELCOME frame. -/
def Frame.isWelcome : Frame → Bool
  | .welcome .. => true
  | _ => false

/-- True exactly for an ABORT frame. -/
def Frame.isAbort : Frame → Bool
  | .abort .. => true
  | _ => false

/-- Number of terminal handshake responses (WELCOME or ABORT frames) in an
output frame list. -/
def terminalCount (fs : List Frame) : Nat :=
  (fs.filter (fun f => f.isWelcome || f.isAbort)).length

/-- Payload of a meta event published on the service session. -/
inductive MetaPayload where
  | leave (sid : Option Nat)
  | join (d : SessionDetails)
  | stats (first last : Bool)
deriving DecidableEq

/-- One `service_session.publish` call: topic, payload, and (as a trace of
the source's statement order) the value of the publishing session's
`_session_id` at the moment of the call. -/
structure MetaEvent where
  topic : String
  payload : MetaPayload
  sid_at_publish : Option Nat
deriving DecidableEq

/-- Modelled from the spec: delivery of a meta event back to its publishing
session. The broker (`crossbar/router/broker.py`, not part of this file) only
delivers events to sessions currently attached to the realm, i.e. sessions
whose `_session_id` is set; so a meta event can reach the publishing session
itself only if that session still had a session id when `publish` was
called. -/
def MetaEvent.deliverableToPublisher (e : MetaEvent) : Bool :=
  e.sid_at_publish.isSome

/-- The `RouterSession` instance state (attributes set in `__init__` /
`onOpen`), together with the external collaborators it reaches through
attributes: the router factory, the cookie store of the transport factory,
and the authentication oracle. `transport_config_auth` is the set of method
names under the transport's `auth` configuration (empty list = the falsy
"no auth configured" case); `router`/`attached` model `_router is not None`
and attachment to the realm router; `next_id` feeds `util.id()`. -/
structure Session where
  transport : Option Transport
  transport_config_auth : List String
  factory : RouterFactory
  oracle : AuthOracle
  cookiestore : CookieStore
  realm : Option String
  session_id : Option Nat
  pending_session_id : Option Nat
  previous_session_id : Option Nat
  next_id : Nat
  goodbye_sent : Bool
  pending_auth : Option String
  authid : Option String
  authrole : Option String
  authmethod : Option String
  authprovider : Option String
  authextra : Option AuthExtra
  service_session : Bool
  session_details : Option SessionDetails
  attached : Bool
  router : Bool
  stats_enabled : Bool
  stats_trigger_on_leave : Bool
  stats_first_triggered : Bool

/-- Observable result of running one handler: the updated session state, the
frames sent on the transport (in order), the meta events published (in
order), the other transports closed via `sendClose`, and whether an uncaught
exception ended the handler early. -/
structure StepRes where
  st : Session
  frames : List Frame
  metas : List MetaEvent
  closes : List Nat
  crashed : Bool

/-- A handler step that does nothing observable. -/
def noop (s : Session) : StepRes :=
  { st := s, frames := [], metas := [], closes := [], crashed := false }

/-- A handler step that dies with an uncaught exception in state `s`. -/
def crash (s : Session) : StepRes :=
  { st := s, frames := [], metas := [], closes := [], crashed := true }

/-- Modelled from the spec: the default `reason` of an `autobahn` `Deny`
built without one (external constant; no claim depends on its exact text). -/
def DEFAULT_DENY_REASON : String := "wamp.error.not_authorized"

/-- Modelled from the spec: `crossbar.router.auth.AUTHMETHODS`, the names of
all known authentication methods (`crossbar.router.auth` is external to this
file; the spec lists anonymous, ticket, wampcra, scram, cryptosign, tls,
cookie plus the proxy variants). -/
def AUTHMETHODS : List String :=
  ["anonymous", "anonymous-proxy", "ticket", "wampcra", "tls",
   "cryptosign", "cryptosign-proxy", "scram", "cookie"]

/-- Modelled from the spec: the key set of
`crossbar.router.auth.AUTHMETHOD_MAP` (external). It contains an entry for
`cookie` as well, which is why the inline cookie branch of the authmethod
loop is reachable, as the spec's cookie flow requires. -/
def AUTHMETHOD_MAP_KEYS : List String := AUTHMETHODS

/-- The `pending_auth_methods` list built inline in `onHello` for the
configured-authentication loop, extended by the personality methods. -/
def pendingAuthMethods (extra : List String) : List String :=
  ["anonymous", "anonymous-proxy", "ticket", "wampcra", "tls",
   "cryptosign", "cryptosign-proxy", "scram"] ++ extra

/-- The methods whose `PendingAuth` objects `onAuthenticate` accepts a
signature for (`isinstance` checks on `PendingAuthTicket`,
`PendingAuthWampCra`, `PendingAuthCryptosign`, `PendingAuthCryptosignProxy`,
`PendingAuthScram`). -/
def authenticatableMethods : List String :=
  ["ticket", "wampcra", "cryptosign", "cryptosign-proxy", "scram"]

/-- The effective authmethod list: `details.authmethods or ["anonymous"]`
(a missing or empty client list is falsy and defaults to anonymous). -/
def effectiveAuthmethods : Option (List String) → List String
  | none => ["anonymous"]
  | some [] => ["anonymous"]
  | some l => l

/-- The fields of `HelloDetails` that `onHello` reads. -/
structure HelloInfo where
  authmethods : Option (List String)
  authextra : Option AuthExtra
deriving DecidableEq

/-- The `for authmethod in authmethods` loop of `onHello` in the
configured-authentication branch: unknown methods deny immediately,
unconfigured or unavailable methods are skipped, pending-auth methods store
the pending auth and return the verifier's `hello` disposition, the cookie
method consults the cookie store via the cbtid parsed from the received
`set-cookie` header, and an exhausted list denies with
`wamp.error.no_auth_method`. -/
def authLoop (s : Session) (t : Transport) (realm : Option String) :
    List String → AuthResult × Session
  | [] =>
    (.deny "wamp.error.no_auth_method"
      (some "cannot authenticate [2] using any of the offered authmethods"), s)
  | m :: rest =>
    if m ∉ AUTHMETHODS ∧ m ∉ s.factory.extra_auth_methods then
      (.deny DEFAULT_DENY_REASON (some "invalid authmethod"), s)
    else if m ∉ s.transport_config_auth then
      authLoop s t realm rest
    else if m ∉ AUTHMETHOD_MAP_KEYS ∧ m ∉ s.factory.extra_auth_methods then
      authLoop s t realm rest
    else if m ∈ pendingAuthMethods s.factory.extra_auth_methods then
      let s1 := { s with pending_auth := some m }
      (s1.oracle.helloResult m realm, s1)
    else if m = "cookie" then
      match t.headers_cbtid with
      | some cbtid =>
        match s.cookiestore.getAuth cbtid with
        | some ca =>
          (.accept ⟨ca.authrealm, ca.authid, ca.authrole, ca.authmethod,
            some "cookie", ca.authextra⟩, s)
        | none => authLoop s t realm rest
      | none => authLoop s t realm rest
    else
      -- `raise Exception("logic error")`, caught by the outer handler
      (.deny DEFAULT_DENY_REASON (some "internal error: logic error"), s)

/-- `RouterSession.onHello`: the cookie realm-reassignment / revocation
preamble, the pre-authenticated transport fast path with its role check,
the unconfigured-authentication anonymous path with its realm checks, and
the configured-authentication method loop. Returns the disposition and the
updated session (the preamble may rewrite the transport's pre-auth fields
and the cookie store; the auth branches may store a pending auth). Internal
errors (the failing `assert self._transport`, a `KeyError` on an unknown
realm) are caught by the outer `try` and turned into a generic `Deny`. -/
def onHello (s : Session) (realm0 : Option String) (details : HelloInfo) :
    AuthResult × Session :=
  let authmethods := effectiveAuthmethods details.authmethods
  match s.transport with
  | none => (.deny DEFAULT_DENY_REASON (some "internal error: no transport"), s)
  | some t0 =>
    -- if the client had a reassigned realm during authentication, restore it
    -- from the cookie; otherwise revoke a cookie pre-authentication that the
    -- client is no longer willing to use
    let pre : Option String × Option AuthExtra × Transport × Session :=
      match t0.authrealm with
      | some ar =>
        if "cookie" ∈ authmethods then
          (some ar, t0.authextra, t0, s)
        else if t0.authprovider = some "cookie" then
          let t1 : Transport :=
            { t0 with authmethod := none, authrealm := none, authid := none }
          let s1 := { s with transport := some t1 }
          let s2 :=
            match t0.cbtid with
            | some c => { s1 with cookiestore := s1.cookiestore.setAuth c CookieAuth.empty }
            | none => s1
          (realm0, details.authextra, t1, s2)
        else
          (realm0, details.authextra, t0, s)
      | none => (realm0, details.authextra, t0, s)
    let realm := pre.1
    let authextra := pre.2.1
    let t := pre.2.2.1
    let s := pre.2.2.2
    if t.authid.isSome ∧ (t.authmethod = some "trusted" ∨
        (∃ p ∈ authmethods, t.authprovider = some p)) then
      -- already authenticated, e.g. via HTTP cookie or TLS client certificate
      match realmLookup s.factory realm with
      | none => (.deny DEFAULT_DENY_REASON (some "internal error: no such realm"), s)
      | some rlm =>
        if ∃ r ∈ rlm.roles, t.authrole = some r then
          (.accept ⟨realm, t.authid, t.authrole, t.authmethod, t.authprovider,
            authextra⟩, s)
        else
          (.deny "wamp.error.no_such_role"
            (some "session was previously authenticated (via transport), but role no longer exists on realm"), s)
    else
      if s.transport_config_auth = [] then
        -- authentication not configured: allow anyone to join as anonymous
        if "anonymous" ∉ authmethods then
          (.deny "wamp.error.no_auth_method"
            (some "cannot authenticate [1] using any of the offered authmethods"), s)
        else
          match realm with
          | none => (.deny "wamp.error.no_such_realm" (some "no realm requested"), s)
          | some r =>
            if (lookupKey s.factory.realms r).isNone then
              (.deny "wamp.error.no_such_realm"
                (some "no realm exists on this router"), s)
            else
              let s1 := { s with pending_auth := some "anonymous" }
              (s1.oracle.helloResult "anonymous" realm, s1)
      else
        authLoop s t realm authmethods

/-- The effective realm produced by the cookie reassignment preamble of
`onHello` in the cases where it does not revoke: when the transport carries a
reassigned auth realm and `cookie` is among the offered authmethods, the
realm is restored from the transport; otherwise the HELLO realm is kept. -/
def preauthRealm (t : Transport) (realm0 : Option String)
    (authmethods : List String) : Option String :=
  match t.authrealm with
  | some ar => if "cookie" ∈ authmethods then some ar else realm0
  | none => realm0

/-- The effective `authextra` produced by the same preamble in the
non-revoking cases: restored from the transport exactly when the realm is. -/
def preauthAuthextra (t : Transport) (details : HelloInfo)
    (authmethods : List String) : Option AuthExtra :=
  match t.authrealm with
  | some _ => if "cookie" ∈ authmethods then t.authextra else details.authextra
  | none => details.authextra

/-- `RouterSession.onAuthenticate`: forward the signature to the stored
pending auth if it is one of the signature-based methods; otherwise deny. -/
def onAuthenticate (s : Session) (signature : String) : AuthResult :=
  match s.pending_auth with
  | some m =>
    if m ∈ authenticatableMethods then
      s.oracle.authenticateResult m signature
    else
      .deny DEFAULT_DENY_REASON (some "internal error: unexpected pending authentication")
  | none => .deny DEFAULT_DENY_REASON (some "no pending authentication")

/-- The `custom` dict assembled in the success callbacks: node id, worker id,
peer string and process id stamped into `authextra`. -/
structure Custom where
  node : Option String
  worker : Option String
  peer : Option String
  pid : Option String

/-- Modelled external environment value for `os.getpid()`. -/
def osPid : String := "pid"

/-- `RouterSession.onJoin`: record the cookie authentication binding when the
transport has a cookie id and the joined method is not itself `cookie`, bind
the realm's service session, remember the session details, and publish
`wamp.session.on_join` (plus the optional first stats event) on the service
session. `router._session_joined` and the serializer stats hook are external
side effects without observable state here. -/
def onJoin (s : Session) (d : SessionDetails) : StepRes :=
  let s1 :=
    match s.transport with
    | some t =>
      match t.cbtid with
      | some c =>
        if d.authmethod ≠ some "cookie" then
          let binding : CookieAuth := ⟨d.authid, d.authrole, d.authmethod, s.realm, some d.authextra⟩
          { s with cookiestore := s.cookiestore.setAuth c binding }
        else s
      | none => s
    | none => s
  if ¬ s1.router then crash s1  -- `assert self._router`
  else
    match realmLookup s1.factory s1.realm with
    | none => crash s1
    | some rlm =>
      let s2 := { s1 with service_session := rlm.has_service_session,
                          session_details := some d }
      if rlm.has_service_session then
        let joinEv : MetaEvent := ⟨"wamp.session.on_join", .join d, s2.session_id⟩
        match rlm.stats with
        | some cfg =>
          let s3 := { s2 with stats_enabled := true,
                              stats_trigger_on_leave := cfg.trigger_on_leave }
          if cfg.trigger_on_join then
            { st := { s3 with stats_first_triggered := true }, frames := [],
              metas := [joinEv, ⟨"wamp.session.on_stats", .stats true false, s3.session_id⟩],
              closes := [], crashed := false }
          else
            { st := { s3 with stats_first_triggered := false }, frames := [],
              metas := [joinEv], closes := [], crashed := false }
        | none =>
          { st := { s2 with stats_enabled := false }, frames := [],
            metas := [joinEv], closes := [], crashed := false }
      else
        { st := s2, frames := [], metas := [], closes := [], crashed := false }

/-- The `welcome(...)` closure of `onMessage`: consume the pending session
id, reset `goodbye_sent`, resolve the realm router (the source raises if the
realm is gone), set the identity fields, augment `authextra` with the four
router-stamped fields, attach to the router, send the WELCOME frame, pop a
nested `transport` descriptor from `authextra`, build the session details
and run `onJoin`. -/
def welcome (s : Session) (ai : AcceptInfo) (custom : Custom) : StepRes :=
  let sid := s.pending_session_id
  let s1 := { s with realm := ai.realm, session_id := sid,
                     pending_session_id := none, goodbye_sent := false }
  match realmLookup s1.factory ai.realm with
  | none => crash s1  -- `raise Exception("logic error (no realm ...))`
  | some _rlm =>
    let ae := ((((ai.authextra.getD []).set "x_cb_node" custom.node).set
        "x_cb_worker" custom.worker).set "x_cb_peer" custom.peer).set
        "x_cb_pid" custom.pid
    let s2 := { s1 with router := true, attached := true,
                        authid := ai.authid, authrole := ai.authrole,
                        authmethod := ai.authmethod, authprovider := ai.authprovider,
                        authextra := some ae }
    match s2.transport with
    | none => crash s2  -- `self._transport.send` on a gone transport
    | some _t =>
      let wFrame := Frame.welcome sid ai.realm ai.authid ai.authrole
        ai.authmethod ai.authprovider ae
      let ae2 := if ae.hasKey "transport" then ae.del "transport" else ae
      let s3 := { s2 with authextra := some ae2 }
      let sd : SessionDetails :=
        ⟨ai.realm, sid, ai.authid, ai.authrole, ai.authmethod, ai.authprovider, ae2⟩
      let r := onJoin s3 sd
      { r with frames := wFrame :: r.frames }

/-- The `onHello_success` callback: if the transport vanished while `onHello`
was in flight, silently return; otherwise emit exactly the response matching
the disposition (WELCOME via `welcome`, CHALLENGE, or ABORT). -/
def onHello_success (s : Session) (res : AuthResult) : StepRes :=
  match s.transport with
  | none => noop s
  | some t =>
    match res with
    | .accept ai =>
      welcome s ai ⟨s.factory.node_id, s.factory.worker_id, some t.peer, some osPid⟩
    | .challenge method => { noop s with frames := [.challenge method] }
    | .deny reason message => { noop s with frames := [.abort reason message] }

/-- The `onAuthenticate_success` callback: like `onHello_success` but a
`Challenge` disposition falls into `else: pass` and emits nothing. -/
def onAuthenticate_success (s : Session) (res : AuthResult) : StepRes :=
  match s.transport with
  | none => noop s
  | some t =>
    match res with
    | .accept ai =>
      welcome s ai ⟨s.factory.node_id, s.factory.worker_id, some t.peer, some osPid⟩
    | .challenge _ => noop s
    | .deny reason message => { noop s with frames := [.abort reason message] }

/-- `RouterSession._swallow_error_and_abort`: send an ABORT with
`wamp.error.authorization_failed`, detach (exceptions swallowed) and clear
the ids. The send is attempted unconditionally, so with a gone transport it
raises `AttributeError` before any cleanup. -/
def swallow_error_and_abort (s : Session) : StepRes :=
  match s.transport with
  | none => crash s
  | some _t =>
    let s1 := { s with attached := false, session_id := none,
                       previous_session_id := none, pending_session_id := none }
    { st := s1,
      frames := [.abort "wamp.error.authorization_failed" (some "Internal server error")],
      metas := [], closes := [], crashed := false }

/-- The `CloseDetails` fields `onLeave` reads. -/
structure CloseInfo where
  reason : Option String
  message : Option String
deriving DecidableEq

/-- `RouterSession.onLeave`: publish `wamp.session.on_leave` (and possibly a
final stats event) when a service session is bound and the session still has
its id (the transport-loss path; after a proper GOODBYE the id is already
cleared and the publish already happened), drop the session details, and on
`wamp.close.logout` delete the cookie binding and `sendClose` every other
transport bound to the same cookie id. Testament processing and
`router._session_left` are external router effects. -/
def onLeave (s : Session) (d : CloseInfo) : StepRes :=
  let metaStep : List MetaEvent × Session :=
    if s.service_session ∧ s.session_id.isSome then
      let ev : MetaEvent := ⟨"wamp.session.on_leave", .leave s.session_id, s.session_id⟩
      if s.stats_enabled ∧ s.stats_trigger_on_leave then
        match s.transport with
        | some _ =>
          ([ev, ⟨"wamp.session.on_stats", .stats (¬ s.stats_first_triggered) true, s.session_id⟩],
           { s with stats_first_triggered := true })
        | none => ([ev], s)
      else ([ev], s)
    else ([], s)
  let metas1 := metaStep.1
  let s1 := { metaStep.2 with session_details := none }
  if d.reason = some "wamp.close.logout" then
    match s1.transport with
    | some t =>
      match t.cbtid with
      | some c =>
        if t.has_cookiestore then
          let s2 := { s1 with cookiestore := s1.cookiestore.delAuth c }
          let kicked := (s2.cookiestore.getProtos c).filter (fun p => p ≠ t.id)
          { st := s2, frames := [], metas := metas1, closes := kicked, crashed := false }
        else
          { st := s1, frames := [], metas := metas1, closes := [], crashed := false }
      | none => { st := s1, frames := [], metas := metas1, closes := [], crashed := false }
    | none => { st := s1, frames := [], metas := metas1, closes := [], crashed := false }
  else
    { st := s1, frames := [], metas := metas1, closes := [], crashed := false }

/-- `RouterSession.onClose`: publish final serializer stats when a service
session is bound (reading `self._transport._serializer`, which raises if the
transport is already `None`), drop the transport, and if the session was
joined run `onLeave` (exceptions caught) and detach (exceptions caught) and
clear `session_id`; finally clear the remaining ids and the `auth*` identity
fields. `authextra` is not touched. -/
def onClose (s : Session) : StepRes :=
  let statsStep : List MetaEvent × Bool :=
    if s.service_session then
      match s.transport with
      | some _ => ([⟨"wamp.session.on_stats", .stats false true, s.session_id⟩], false)
      | none => ([], true)
    else ([], false)
  if statsStep.2 then crash s
  else
    let s1 := { s with transport := none }
    let leaveStep : StepRes :=
      if s1.session_id.isSome then
        let r := onLeave s1 ⟨none, none⟩
        { r with st := { r.st with attached := false, session_id := none } }
      else noop s1
    let s2 := { leaveStep.st with
                  previous_session_id := none, pending_session_id := none,
                  authid := none, authrole := none, authmethod := none,
                  authprovider := none }
    { st := s2, frames := [], metas := statsStep.1 ++ leaveStep.metas,
      closes := leaveStep.closes, crashed := false }

/-- The inbound WAMP messages `onMessage` distinguishes; `other` stands for
every routed message handed to `router.process`. -/
inductive Msg where
  | hello (realm : Option String) (authmethods : Option (List String))
      (authextra : Option AuthExtra)
  | authenticate (signature : String)
  | abort (reason : String) (message : Option String)
  | goodbye (reason : String) (message : Option String)
  | other
deriving DecidableEq

/-- `RouterSession.onMessage`: the full dispatch. Before join
(`_session_id is None`) a pending session id is drawn if missing; HELLO and
AUTHENTICATE run their handler and, on (synchronous) resolution, the
corresponding success callback; ABORT fires `onLeave` and clears the ids;
everything else is logged and ignored. After join, HELLO is ignored, GOODBYE
runs the goodbye exchange (reply at most once, detach, save and clear the
session id, publish `wamp.session.on_leave`, fire `onLeave`), and all other
messages go to `router.process` (the external broker/dealer). -/
def onMessage (s : Session) (msg : Msg) : StepRes :=
  match s.session_id with
  | none =>
    let s0 :=
      if s.pending_session_id.isNone then
        { s with pending_session_id := some s.next_id, next_id := s.next_id + 1 }
      else s
    match msg with
    | .hello realm0 authmethods authextra =>
      let hr := onHello s0 realm0 ⟨authmethods, authextra⟩
      onHello_success hr.2 hr.1
    | .authenticate signature =>
      onAuthenticate_success s0 (onAuthenticate s0 signature)
    | .abort reason message =>
      let r := onLeave s0 ⟨some reason, message⟩
      let st1 := { r.st with
                     session_id := none, previous_session_id := none,
                     pending_session_id := none }
      { r with st := st1 }
    | _ => noop s0
  | some _sid =>
    match msg with
    | .hello _ _ _ => noop s  -- protocol violation: logged and ignored
    | .goodbye reason message =>
      let replyStep : List Frame × Session × Bool :=
        if s.goodbye_sent then ([], s, false)
        else
          match s.transport with
          | some _ => ([.goodbye], { s with goodbye_sent := true }, false)
          | none => ([], s, true)
      if replyStep.2.2 then crash replyStep.2.1
      else
        let s1 := replyStep.2.1
        -- detach the session from the router before erasing the session id
        let s2 := { s1 with attached := false }
        -- save the session id for the on_leave meta event, then clear it
        let s3 := { s2 with previous_session_id := s2.session_id,
                            session_id := none, pending_session_id := none }
        -- publish after `_session_id` is None so we never publish to ourselves
        let metas :=
          if s3.service_session then
            [(⟨"wamp.session.on_leave", .leave s3.previous_session_id, s3.session_id⟩ : MetaEvent)]
          else []
        let r := onLeave s3 ⟨some reason, message⟩
        { st := r.st, frames := replyStep.1 ++ r.frames, metas := metas ++ r.metas,
          closes := r.closes, crashed := r.crashed }
    | _ => noop s  -- handed to `router.process` (external broker/dealer)

/-! Concrete fixtures used by witnesses and counterexamples. -/

/-- A router factory hosting one realm `realm1` with roles `anonymous` and
`admin`, a bound service session and no stats configuration. -/
def factory1 : RouterFactory :=
  { realms := [("realm1", ⟨["anonymous", "admin"], true, none⟩)],
    node_id := some "node1", worker_id := some "worker1", extra_auth_methods := [] }

/-- A fresh transport without pre-authentication data. -/
def transport1 : Transport :=
  { id := 1, authid := none, authrole := none, authmethod := none,
    authprovider := none, authrealm := none, authextra := none, cbtid := none,
    headers_cbtid := none, peer := "tcp4:127.0.0.1:1111", has_cookiestore := true }

/-- A verifier oracle that denies every hello and every signature. -/
def oracleDeny : AuthOracle :=
  { helloResult := fun _ _ => .deny "wamp.error.authorization_failed" none,
    authenticateResult := fun _ _ => .deny "wamp.error.authorization_failed" none }

/-- A session as `onOpen` leaves it: fresh transport, no auth configured,
empty cookie store, nothing joined. -/
def session1 : Session :=
  { transport := some transport1, transport_config_auth := [], factory := factory1,
    oracle := oracleDeny, cookiestore := ⟨[], []⟩, realm := none,
    session_id := none, pending_session_id := none, previous_session_id := none,
    next_id := 100, goodbye_sent := false, pending_auth := none,
    authid := none, authrole := none, authmethod := none, authprovider := none,
    authextra := none, service_session := false, session_details := none,
    attached := false, router := false, stats_enabled := false,
    stats_trigger_on_leave := false, stats_first_triggered := false }

/-- A session joined on `realm1` (as after a completed WAMP-CRA handshake;
note the source never clears `_pending_auth`, so it is still set). -/
def sessionJoined : Session :=
  { session1 with
      session_id := some 100
      realm := some "realm1"
      pending_auth := some "wampcra"
      service_session := true
      attached := true
      router := true
      authid := some "alice"
      authrole := some "admin"
      authmethod := some "wampcra"
      authprovider := some "static"
      authextra := some [("k", some "v")] }

/-- A session whose transport has already been lost. -/
def sessionLost : Session := { session1 with transport := none }

/-- A session in the authenticating phase: pending session id drawn and a
WAMP-CRA pending auth stored after a CHALLENGE. -/
def sessionPending : Session :=
  { session1 with pending_session_id := some 55, pending_auth := some "wampcra" }

/-- A transport carrying a cookie id. -/
def transportCookie : Transport := { transport1 with cbtid := some "cbtid1" }

/-- A pre-authenticated transport whose identity came from a cookie but whose
`authmethod` is `trusted`, with a reassigned auth realm. -/
def transportPreauth : Transport :=
  { transport1 with
      authid := some "alice"
      authrole := some "admin"
      authmethod := some "trusted"
      authprovider := some "cookie"
      authrealm := some "realm1" }

/-- A session on the pre-authenticated transport with `ticket` (only)
configured for authentication. -/
def sessionPreauth : Session :=
  { session1 with transport := some transportPreauth, transport_config_auth := ["ticket"] }

/-- The pre-authenticated transport as a TLS pre-authentication would leave
it: same identity, no reassigned auth realm. -/
def transportTls : Transport :=
  { transportPreauth with authrealm := none, authprovider := some "tls" }

/-- A session on the TLS pre-authenticated transport. -/
def sessionTls : Session := { session1 with transport := some transportTls }

/-- An `Accept` disposition as a WAMP-CRA verifier would produce it. -/
def acceptAlice : AcceptInfo :=
  ⟨some "realm1", some "alice", some "admin", some "wampcra", some "static", none⟩

/-- A cookie store with one authenticated cookie bound to three transports. -/
def storeThree : CookieStore :=
  ⟨[("cbtid1", ⟨some "alice", some "admin", some "wampcra", some "realm1", none⟩)],
   [("cbtid1", [1, 2, 3])]⟩

/-- The joined session on the cookie transport over `storeThree`. -/
def sessionLogout : Session :=
  { sessionJoined with transport := some transportCookie, cookiestore := storeThree }

/-- The joined session on the cookie-carrying transport (empty cookie
store). -/
def sessionJoinedCookie : Session :=
  { sessionJoined with transport := some transportCookie }

/-- The session details of `sessionJoinedCookie` as `welcome` assembled
them. -/
def sdAlice : SessionDetails :=
  ⟨some "realm1", some 100, some "alice", some "admin", some "wampcra",
   some "static", [("k", some "v")]⟩

/-- A second, fresh transport presenting the same cookie id `cbtid1` in its
received headers. -/
def transportCookie2 : Transport :=
  { transport1 with id := 2, headers_cbtid := some "cbtid1" }

/-- A fresh session on `transportCookie2` whose cookie store is the one left
behind by `sessionJoinedCookie`'s join, with `cookie` configured. -/
def sessionHelloCookie : Session :=
  { session1 with
      transport := some transportCookie2
      cookiestore := (onJoin sessionJoinedCookie sdAlice).st.cookiestore
      transport_config_auth := ["cookie"] }

/-! Helper lemmas. -/

theorem lookupKey_filter_ne {α : Type} (l : List (String × α)) (c : String) :
    lookupKey (l.filter (fun p => p.1 != c)) c = none := by
  induction l with
  | nil => rfl
  | cons h t ih =>
    rw [List.filter_cons]
    by_cases hc : h.1 = c
    · simp [hc, ih]
    · simp [hc, lookupKey, ih]

theorem lookupKey_append {α : Type} (l1 l2 : List (String × α)) (c : String) :
    lookupKey (l1 ++ l2) c =
      match lookupKey l1 c with
      | some v => some v
      | none => lookupKey l2 c := by
  induction l1 with
  | nil => rfl
  | cons h t ih =>
    by_cases hc : h.1 = c
    · cases h; simp_all [lookupKey]
    · cases h; simp_all [lookupKey]

theorem getAuth_setAuth (cs : CookieStore) (c : String) (a : CookieAuth) :
    (cs.setAuth c a).getAuth c = some a := by
  simp [CookieStore.getAuth, CookieStore.setAuth, lookupKey_append,
    lookupKey_filter_ne, lookupKey]

theorem getAuth_delAuth (cs : CookieStore) (c : String) :
    (cs.delAuth c).getAuth c = none := by
  simp [CookieStore.getAuth, CookieStore.delAuth, lookupKey_filter_ne]

@[simp] theorem onJoin_frames (s : Session) (d : SessionDetails) :
    (onJoin s d).frames = [] := by
  simp only [onJoin, crash, noop]
  repeat' split
  all_goals rfl

@[simp] theorem onLeave_frames (s : Session) (d : CloseInfo) :
    (onLeave s d).frames = [] := by
  simp only [onLeave, crash, noop]
  repeat' split
  all_goals rfl

@[simp] theorem onLeave_not_crashed (s : Session) (d : CloseInfo) :
    (onLeave s d).crashed = false := by
  simp only [onLeave, crash, noop]
  repeat' split
  all_goals rfl

@[simp] theorem onLeave_st_session_id (s : Session) (d : CloseInfo) :
    (onLeave s d).st.session_id = s.session_id := by
  simp only [onLeave, crash, noop]
  repeat' split
  all_goals rfl

@[simp] theorem onLeave_st_previous_session_id (s : Session) (d : CloseInfo) :
    (onLeave s d).st.previous_session_id = s.previous_session_id := by
  simp only [onLeave, crash, noop]
  repeat' split
  all_goals rfl

@[simp] theorem onLeave_st_pending_session_id (s : Session) (d : CloseInfo) :
    (onLeave s d).st.pending_session_id = s.pending_session_id := by
  simp only [onLeave, crash, noop]
  repeat' split
  all_goals rfl

@[simp] theorem onLeave_st_pending_auth (s : Session) (d : CloseInfo) :
    (onLeave s d).st.pending_auth = s.pending_auth := by
  simp only [onLeave, crash, noop]
  repeat' split
  all_goals rfl

@[simp] theorem onLeave_st_authid (s : Session) (d : CloseInfo) :
    (onLeave s d).st.authid = s.authid := by
  simp only [onLeave, crash, noop]
  repeat' split
  all_goals rfl

@[simp] theorem onLeave_st_authrole (s : Session) (d : CloseInfo) :
    (onLeave s d).st.authrole = s.authrole := by
  simp only [onLeave, crash, noop]
  repeat' split
  all_goals rfl

@[simp] theorem onLeave_st_authmethod (s : Session) (d : CloseInfo) :
    (onLeave s d).st.authmethod = s.authmethod := by
  simp only [onLeave, crash, noop]
  repeat' split
  all_goals rfl

@[simp] theorem onLeave_st_authprovider (s : Session) (d : CloseInfo) :
    (onLeave s d).st.authprovider = s.authprovider := by
  simp only [onLeave, crash, noop]
  repeat' split
  all_goals rfl

@[simp] theorem onLeave_st_authextra (s : Session) (d : CloseInfo) :
    (onLeave s d).st.authextra = s.authextra := by
  simp only [onLeave, crash, noop]
  repeat' split
  all_goals rfl

@[simp] theorem onLeave_st_transport (s : Session) (d : CloseInfo) :
    (onLeave s d).st.transport = s.transport := by
  simp only [onLeave, crash, noop]
  repeat' split
  all_goals rfl

@[simp] theorem onLeave_st_goodbye_sent (s : Session) (d : CloseInfo) :
    (onLeave s d).st.goodbye_sent = s.goodbye_sent := by
  simp only [onLeave, crash, noop]
  repeat' split
  all_goals rfl

@[simp] theorem onLeave_metas_of_left (s : Session) (d : CloseInfo)
    (h : s.session_id = none) : (onLeave s d).metas = [] := by
  simp only [onLeave, crash, noop]
  repeat' split
  all_goals simp_all

@[simp] theorem onLeave_st_session_details (s : Session) (d : CloseInfo) :
    (onLeave s d).st.session_details = none := by
  simp only [onLeave, crash, noop]
  repeat' split
  all_goals rfl

theorem onJoin_cookiestore_setAuth (s : Session) (d : SessionDetails) (t : Transport)
    (c : String) (ht : s.transport = some t) (hc : t.cbtid = some c)
    (hm : d.authmethod ≠ some "cookie") :
    (onJoin s d).st.cookiestore =
      s.cookiestore.setAuth c ⟨d.authid, d.authrole, d.authmethod, s.realm, some d.authextra⟩ := by
  simp only [onJoin, crash, noop, ht, hc, if_pos hm]
  repeat' split
  all_goals rfl

theorem authLoop_cookie_hit (s : Session) (t : Transport) (realm : Option String)
    (ms : List String) (c : String) (ca : CookieAuth)
    (hmem : "cookie" ∈ ms)
    (hpre : ∀ m ∈ ms.takeWhile (fun x => x != "cookie"),
      m ∈ AUTHMETHODS ∧ m ∉ s.transport_config_auth)
    (hcfg : "cookie" ∈ s.transport_config_auth)
    (hextra : "cookie" ∉ s.factory.extra_auth_methods)
    (hh : t.headers_cbtid = some c)
    (hca : s.cookiestore.getAuth c = some ca) :
    authLoop s t realm ms =
      (.accept ⟨ca.authrealm, ca.authid, ca.authrole, ca.authmethod,
        some "cookie", ca.authextra⟩, s) := by
  induction ms with
  | nil => cases hmem
  | cons m rest ih =>
    by_cases hm : m = "cookie"
    · subst hm
      have h1 : ¬ ("cookie" ∉ AUTHMETHODS ∧ "cookie" ∉ s.factory.extra_auth_methods) := by
        simp [AUTHMETHODS]
      have h3 : ¬ ("cookie" ∉ AUTHMETHOD_MAP_KEYS ∧
          "cookie" ∉ s.factory.extra_auth_methods) := by
        simp [AUTHMETHOD_MAP_KEYS, AUTHMETHODS]
      have h4 : "cookie" ∉ pendingAuthMethods s.factory.extra_auth_methods := by
        simp [pendingAuthMethods, hextra]
      simp [authLoop, h1, hcfg, h3, h4, hh, hca]
    · have hmem' : "cookie" ∈ rest := by
        cases hmem with
        | head => exact absurd rfl hm
        | tail _ h => exact h
      have hpre_head : m ∈ AUTHMETHODS ∧ m ∉ s.transport_config_auth := by
        apply hpre
        rw [List.takeWhile_cons_of_pos (by simp [hm])]
        exact List.mem_cons_self _ _
      have hpre' : ∀ x ∈ rest.takeWhile (fun x => x != "cookie"),
          x ∈ AUTHMETHODS ∧ x ∉ s.transport_config_auth := by
        intro x hx
        apply hpre
        rw [List.takeWhile_cons_of_pos (by simp [hm])]
        exact List.mem_cons_of_mem _ hx
      have h1 : ¬ (m ∉ AUTHMETHODS ∧ m ∉ s.factory.extra_auth_methods) := by
        simp [hpre_head.1]
      simp only [authLoop, if_neg h1, if_pos hpre_head.2]
      exact ih hmem' hpre'

theorem welcome_terminal (s : Session) (ai : AcceptInfo) (cu : Custom)
    (ht : s.transport.isSome = true)
    (hr : (realmLookup s.factory ai.realm).isSome = true) :
    terminalCount (welcome s ai cu).frames = 1 := by
  obtain ⟨rlm, hrlm⟩ := Option.isSome_iff_exists.mp hr
  obtain ⟨t, ht'⟩ := Option.isSome_iff_exists.mp ht
  simp [welcome, crash, hrlm, ht', terminalCount, Frame.isWelcome, Frame.isAbort]

theorem onHello_success_terminal (s : Session) (res : AuthResult)
    (ht : s.transport.isSome = true)
    (hacc : ∀ ai, res = .accept ai → (realmLookup s.factory ai.realm).isSome = true)
    (hch : res.isChallenge = false) :
    terminalCount (onHello_success s res).frames = 1 := by
  obtain ⟨t, ht'⟩ := Option.isSome_iff_exists.mp ht
  cases res with
  | accept ai =>
    have hr := hacc ai rfl
    simp only [onHello_success, ht']
    exact welcome_terminal s ai _ ht hr
  | challenge meth => simp [AuthResult.isChallenge] at hch
  | deny r msg =>
    simp [onHello_success, ht', noop, terminalCount, Frame.isWelcome, Frame.isAbort]

theorem onAuthenticate_success_terminal (s : Session) (res : AuthResult)
    (ht : s.transport.isSome = true)
    (hacc : ∀ ai, res = .accept ai → (realmLookup s.factory ai.realm).isSome = true)
    (hch : res.isChallenge = false) :
    terminalCount (onAuthenticate_success s res).frames = 1 := by
  obtain ⟨t, ht'⟩ := Option.isSome_iff_exists.mp ht
  cases res with
  | accept ai =>
    have hr := hacc ai rfl
    simp only [onAuthenticate_success, ht']
    exact welcome_terminal s ai _ ht hr
  | challenge meth => simp [AuthResult.isChallenge] at hch
  | deny r msg =>
    simp [onAuthenticate_success, ht', noop, terminalCount, Frame.isWelcome, Frame.isAbort]

theorem onHello_success_challenge (s : Session) (meth : String)
    (ht : s.transport.isSome = true) :
    (onHello_success s (.challenge meth)).frames = [.challenge meth] ∧
    (onHello_success s (.challenge meth)).st = s := by
  obtain ⟨t, ht'⟩ := Option.isSome_iff_exists.mp ht
  simp [onHello_success, ht', noop]

theorem onMessage_authenticate_terminal (s : Session) (sig : String)
    (ht : s.transport.isSome = true) (hsid : s.session_id = none)
    (hOch : ∀ meth sg, (s.oracle.authenticateResult meth sg).isChallenge = false)
    (hOacc : ∀ meth sg ai, s.oracle.authenticateResult meth sg = .accept ai →
      (realmLookup s.factory ai.realm).isSome = true) :
    terminalCount (onMessage s (.authenticate sig)).frames = 1 := by
  have key : ∀ s0 : Session, s0.transport = s.transport → s0.oracle = s.oracle →
      s0.factory = s.factory →
      terminalCount (onAuthenticate_success s0 (onAuthenticate s0 sig)).frames = 1 := by
    intro s0 h0t h0o h0f
    apply onAuthenticate_success_terminal
    · rw [h0t]
      exact ht
    · intro ai hai
      rw [h0f]
      revert hai
      unfold onAuthenticate
      cases hpa : s0.pending_auth with
      | none => intro hai; exact AuthResult.noConfusion hai
      | some m =>
        dsimp only
        by_cases hmem : m ∈ authenticatableMethods
        · rw [if_pos hmem, h0o]
          intro hai
          exact hOacc m sig ai hai
        · rw [if_neg hmem]
          intro hai
          exact AuthResult.noConfusion hai
    · unfold onAuthenticate
      cases hpa : s0.pending_auth with
      | none => rfl
      | some m =>
        dsimp only
        by_cases hmem : m ∈ authenticatableMethods
        · rw [if_pos hmem, h0o]
          exact hOch m sig
        · rw [if_neg hmem]
          rfl
  by_cases hps : s.pending_session_id.isNone = true
  · simp only [onMessage, hsid, if_pos hps]
    exact key _ rfl rfl rfl
  · simp only [onMessage, hsid, if_neg hps]
    exact key s rfl rfl rfl

/-! Claim theorems. -/

/-- C10: for every session with its transport still present when the close
callback runs, `RouterSession.onClose` sets `session_id`,
`previous_session_id`, `pending_session_id`, `authid`, `authrole`,
`authmethod` and `authprovider` to `None` but leaves the `authextra`
attribute unchanged: a session joined with a non-null `authextra` still
holds that value after `onClose`. -/
theorem c10_onClose_clears_ids_keeps_authextra (s : Session)
    (ht : s.transport.isSome = true) :
    (onClose s).st.session_id = none ∧
    (onClose s).st.previous_session_id = none ∧
    (onClose s).st.pending_session_id = none ∧
    (onClose s).st.authid = none ∧
    (onClose s).st.authrole = none ∧
    (onClose s).st.authmethod = none ∧
    (onClose s).st.authprovider = none ∧
    (onClose s).st.authextra = s.authextra := by
  obtain ⟨t, ht'⟩ := Option.isSome_iff_exists.mp ht
  simp only [onClose, crash, noop, ht']
  repeat' split
  all_goals simp_all

/-- C10 witness: the joined session `sessionJoined` (with
`authextra = some [("k", some "v")]`) keeps exactly that `authextra` across
`onClose` while every id and identity field is cleared. -/
theorem c10_onClose_witness :
    (onClose sessionJoined).st.session_id = none ∧
    (onClose sessionJoined).st.previous_session_id = none ∧
    (onClose sessionJoined).st.pending_session_id = none ∧
    (onClose sessionJoined).st.authid = none ∧
    (onClose sessionJoined).st.authrole = none ∧
    (onClose sessionJoined).st.authmethod = none ∧
    (onClose sessionJoined).st.authprovider = none ∧
    (onClose sessionJoined).st.authextra = sessionJoined.authextra :=
  c10_onClose_clears_ids_keeps_authextra sessionJoined rfl

/-- C9: when a session leaves with close reason `wamp.close.logout` and its
transport carries a cookie id with a cookie store configured, `onLeave`
deletes the cookie's authentication binding and calls `sendClose` on exactly
the other transports bound to the same cookie id, never on the originating
transport itself. -/
theorem c9_logout_kicks_other_transports (s : Session) (t : Transport) (c : String)
    (m : Option String)
    (ht : s.transport = some t) (hc : t.cbtid = some c)
    (hcs : t.has_cookiestore = true) :
    (onLeave s ⟨some "wamp.close.logout", m⟩).st.cookiestore.getAuth c = none ∧
    (onLeave s ⟨some "wamp.close.logout", m⟩).closes =
      (s.cookiestore.getProtos c).filter (fun p => p ≠ t.id) ∧
    t.id ∉ (onLeave s ⟨some "wamp.close.logout", m⟩).closes := by
  have hdel := getAuth_delAuth s.cookiestore c
  simp only [onLeave, crash, noop]
  repeat' split
  all_goals simp_all [CookieStore.delAuth, CookieStore.getProtos]

/-- C9 witness: on `sessionLogout` (cookie `cbtid1` bound to transports 1, 2
and 3, originating transport 1) logout deletes the binding and closes
exactly transports 2 and 3. -/
theorem c9_logout_witness :
    (onLeave sessionLogout ⟨some "wamp.close.logout", none⟩).st.cookiestore.getAuth "cbtid1" = none ∧
    (onLeave sessionLogout ⟨some "wamp.close.logout", none⟩).closes =
      (sessionLogout.cookiestore.getProtos "cbtid1").filter (fun p => p ≠ transportCookie.id) ∧
    transportCookie.id ∉ (onLeave sessionLogout ⟨some "wamp.close.logout", none⟩).closes :=
  c9_logout_kicks_other_transports sessionLogout transportCookie "cbtid1" none rfl rfl rfl

/-- C5: if the transport has been lost (`_transport is None`) by the time an
`onHello` or `onAuthenticate` future resolves, the session emits no message
at all (no WELCOME, CHALLENGE or ABORT) and `session_id` remains `None`,
whether the future resolved successfully (the success callbacks check the
transport and return) or with an error (`_swallow_error_and_abort` attempts
the send, which raises on the gone transport before anything is emitted or
changed). -/
theorem c5_transport_lost_emits_nothing (s : Session) (res : AuthResult)
    (hT : s.transport = none) (hsid : s.session_id = none) :
    (onHello_success s res).frames = [] ∧
    (onHello_success s res).st.session_id = none ∧
    (onAuthenticate_success s res).frames = [] ∧
    (onAuthenticate_success s res).st.session_id = none ∧
    (swallow_error_and_abort s).frames = [] ∧
    (swallow_error_and_abort s).st.session_id = none := by
  simp [onHello_success, onAuthenticate_success, swallow_error_and_abort, noop,
    crash, hT, hsid]

/-- C5 witness: on `sessionLost` an `Accept` disposition resolves without any
frame and without a session id. -/
theorem c5_transport_lost_witness :
    (onHello_success sessionLost (.accept acceptAlice)).frames = [] ∧
    (onHello_success sessionLost (.accept acceptAlice)).st.session_id = none ∧
    (onAuthenticate_success sessionLost (.accept acceptAlice)).frames = [] ∧
    (onAuthenticate_success sessionLost (.accept acceptAlice)).st.session_id = none ∧
    (swallow_error_and_abort sessionLost).frames = [] ∧
    (swallow_error_and_abort sessionLost).st.session_id = none :=
  c5_transport_lost_emits_nothing sessionLost (.accept acceptAlice) rfl rfl

/-- C2: in the joined-state GOODBYE handling, `session_id` is saved into
`previous_session_id` and set to `None` strictly before
`wamp.session.on_leave` is published via the service session (the published
event records a cleared `_session_id` at publish time), the publish carries
`previous_session_id`, and consequently — since the broker only delivers to
attached sessions — the `on_leave` meta event for the departing session is
never deliverable to that session itself. -/
theorem c2_goodbye_clears_session_id_before_on_leave (s : Session) (t : Transport)
    (sid : Nat) (reason : String) (m : Option String)
    (hj : s.session_id = some sid) (ht : s.transport = some t)
    (hss : s.service_session = true) :
    (onMessage s (.goodbye reason m)).st.previous_session_id = some sid ∧
    (onMessage s (.goodbye reason m)).st.session_id = none ∧
    (onMessage s (.goodbye reason m)).metas =
      [⟨"wamp.session.on_leave", .leave (some sid), none⟩] ∧
    (∀ e ∈ (onMessage s (.goodbye reason m)).metas,
      e.topic = "wamp.session.on_leave" → e.deliverableToPublisher = false) := by
  by_cases hgs : s.goodbye_sent
  all_goals
    simp_all [onMessage, crash, MetaEvent.deliverableToPublisher]

/-- C2 witness: the joined session `sessionJoined` (id 100) processing a
normal GOODBYE. -/
theorem c2_goodbye_witness :
    (onMessage sessionJoined (.goodbye "wamp.close.normal" none)).st.previous_session_id = some 100 ∧
    (onMessage sessionJoined (.goodbye "wamp.close.normal" none)).st.session_id = none ∧
    (onMessage sessionJoined (.goodbye "wamp.close.normal" none)).metas =
      [⟨"wamp.session.on_leave", .leave (some 100), none⟩] ∧
    (∀ e ∈ (onMessage sessionJoined (.goodbye "wamp.close.normal" none)).metas,
      e.topic = "wamp.session.on_leave" → e.deliverableToPublisher = false) :=
  c2_goodbye_clears_session_id_before_on_leave sessionJoined transport1 100
    "wamp.close.normal" none rfl rfl rfl

/-- C4 counterexample: the claim says the not-yet-joined ABORT handling
releases the pending auth (`pending_auth := None`); on the code it does not.
`sessionPending` holds a WAMP-CRA pending auth, and after processing an
ABORT the pending auth is still stored (the source never clears
`_pending_auth` anywhere). -/
theorem c4_abort_counterexample :
    sessionPending.pending_auth = some "wampcra" ∧
    (onMessage sessionPending (.abort "wamp.error.bad" none)).st.pending_auth =
      some "wampcra" :=
  ⟨rfl, rfl⟩

/-- C4 (amended): when a not-yet-joined session receives an ABORT message,
it fires `onLeave` with the abort's reason and message (observable here in
the cleared `session_details`) and clears `session_id`,
`previous_session_id` and `pending_session_id` to `None` — but it does NOT
release the pending auth: `pending_auth` is left unchanged, and may remain
non-null outside the CHALLENGE/AUTHENTICATE window. -/
theorem c4_abort_clears_ids_keeps_pending_auth (s : Session) (reason : String)
    (m : Option String) (hsid : s.session_id = none) :
    (onMessage s (.abort reason m)).st.session_id = none ∧
    (onMessage s (.abort reason m)).st.previous_session_id = none ∧
    (onMessage s (.abort reason m)).st.pending_session_id = none ∧
    (onMessage s (.abort reason m)).st.session_details = none ∧
    (onMessage s (.abort reason m)).st.pending_auth = s.pending_auth := by
  by_cases hp : s.pending_session_id.isNone
  all_goals simp_all [onMessage]

/-- C4 witness: the amended claim at `sessionPending`. -/
theorem c4_abort_witness :
    (onMessage sessionPending (.abort "wamp.error.bad" none)).st.session_id = none ∧
    (onMessage sessionPending (.abort "wamp.error.bad" none)).st.previous_session_id = none ∧
    (onMessage sessionPending (.abort "wamp.error.bad" none)).st.pending_session_id = none ∧
    (onMessage sessionPending (.abort "wamp.error.bad" none)).st.session_details = none ∧
    (onMessage sessionPending (.abort "wamp.error.bad" none)).st.pending_auth =
      sessionPending.pending_auth :=
  c4_abort_clears_ids_keeps_pending_auth sessionPending "wamp.error.bad" none rfl

/-- C3 counterexample: the claim says that once `goodbye_sent` is true no
WAMP frame other than the single responding GOODBYE is sent on the
transport. On the code, after the GOODBYE exchange (with `goodbye_sent`
still true, never reset), a further AUTHENTICATE message reaches the stale
`_pending_auth` (never cleared) and the session sends an ABORT frame on the
same transport. -/
theorem c3_goodbye_counterexample :
    (onMessage sessionJoined (.goodbye "wamp.close.normal" none)).st.goodbye_sent = true ∧
    (onMessage (onMessage sessionJoined (.goodbye "wamp.close.normal" none)).st
      (.authenticate "bad")).st.goodbye_sent = true ∧
    (onMessage (onMessage sessionJoined (.goodbye "wamp.close.normal" none)).st
      (.authenticate "bad")).frames =
      [.abort "wamp.error.authorization_failed" none] :=
  ⟨rfl, rfl, rfl⟩

/-- C3 (amended): within the goodbye exchange itself the property holds:
processing a GOODBYE in the joined state sends exactly one responding
GOODBYE when `goodbye_sent` was false and no frame at all when it was
already true, the session id is cleared, and a second GOODBYE from the peer
is ignored without any frame being sent. (A later new handshake on the
kept-open transport — HELLO, or AUTHENTICATE against the never-cleared
pending auth — may send frames again even though `goodbye_sent` is still
true; see the counterexample.) -/
theorem c3_goodbye_single_reply (s : Session) (t : Transport) (sid : Nat)
    (reason : String) (m : Option String)
    (ht : s.transport = some t) (hj : s.session_id = some sid) :
    (s.goodbye_sent = false → (onMessage s (.goodbye reason m)).frames = [.goodbye]) ∧
    (s.goodbye_sent = true → (onMessage s (.goodbye reason m)).frames = []) ∧
    (onMessage s (.goodbye reason m)).st.session_id = none ∧
    (onMessage (onMessage s (.goodbye reason m)).st (.goodbye reason m)).frames = [] := by
  by_cases hgs : s.goodbye_sent
  all_goals simp_all [onMessage, noop]

/-- C3 witness: the joined session `sessionJoined` replies to the first
GOODBYE with exactly one GOODBYE frame and ignores the second. -/
theorem c3_goodbye_witness :
    (sessionJoined.goodbye_sent = false →
      (onMessage sessionJoined (.goodbye "wamp.close.normal" none)).frames = [.goodbye]) ∧
    (sessionJoined.goodbye_sent = true →
      (onMessage sessionJoined (.goodbye "wamp.close.normal" none)).frames = []) ∧
    (onMessage sessionJoined (.goodbye "wamp.close.normal" none)).st.session_id = none ∧
    (onMessage (onMessage sessionJoined (.goodbye "wamp.close.normal" none)).st
      (.goodbye "wamp.close.normal" none)).frames = [] :=
  c3_goodbye_single_reply sessionJoined transport1 100 "wamp.close.normal" none rfl rfl

/-- C6 counterexample: the claim's precondition holds at this input (the
transport carries `authid=alice`, `authmethod=trusted`, and realm `realm1`
still has the stored role `admin`), so the claim predicts an `Accept` with
alice's identity — but because the transport also carries a reassigned auth
realm with `authprovider = cookie` while `cookie` is not among the offered
methods, `onHello` first revokes the pre-authentication and then falls
through to the configured-method loop, returning Deny
`wamp.error.no_auth_method`. -/
theorem c6_preauth_counterexample :
    transportPreauth.authid.isSome = true ∧
    transportPreauth.authmethod = some "trusted" ∧
    realmLookup sessionPreauth.factory (some "realm1") =
      some ⟨["anonymous", "admin"], true, none⟩ ∧
    transportPreauth.authrole = some "admin" ∧
    (onHello sessionPreauth (some "realm1") ⟨some ["anonymous"], none⟩).1 =
      .deny "wamp.error.no_auth_method"
        (some "cannot authenticate [2] using any of the offered authmethods") :=
  ⟨rfl, rfl, rfl, rfl, rfl⟩

/-- C6 (amended): on HELLO, if the transport carries a pre-authenticated
identity (transport `authid` set, and transport `authmethod` `trusted` or
transport `authprovider` among the offered authmethods), and the revocation
corner does not apply (not: auth realm set, `authprovider = cookie`, and
`cookie` not offered — in that corner the pre-authentication is first
revoked, see the counterexample), then `onHello` works with the effective
realm of the preamble — the transport's reassigned auth realm when one is
set and `cookie` is offered, otherwise the HELLO realm — and, provided that
effective realm exists on the router, returns `Accept` with exactly the
transport's stored `authid`, `authrole`, `authmethod` and `authprovider`
(and the effective `authextra`) when the effective realm still has the
stored `authrole`, and `Deny` with reason `wamp.error.no_such_role` when it
does not. -/
theorem c6_preauth_accept_or_no_such_role (s : Session) (t : Transport)
    (realm0 : Option String) (details : HelloInfo) (rlm : Realm)
    (ht : s.transport = some t)
    (haid : t.authid.isSome = true)
    (hnorevoke : t.authrealm = none ∨
      "cookie" ∈ effectiveAuthmethods details.authmethods ∨
      t.authprovider ≠ some "cookie")
    (hm : t.authmethod = some "trusted" ∨
      ∃ p ∈ effectiveAuthmethods details.authmethods, t.authprovider = some p)
    (hrealm : realmLookup s.factory
      (preauthRealm t realm0 (effectiveAuthmethods details.authmethods)) = some rlm) :
    (onHello s realm0 details).1 =
      (if ∃ r ∈ rlm.roles, t.authrole = some r then
        .accept ⟨preauthRealm t realm0 (effectiveAuthmethods details.authmethods),
          t.authid, t.authrole, t.authmethod, t.authprovider,
          preauthAuthextra t details (effectiveAuthmethods details.authmethods)⟩
      else
        .deny "wamp.error.no_such_role"
          (some "session was previously authenticated (via transport), but role no longer exists on realm")) := by
  cases har : t.authrealm with
  | none =>
    simp only [preauthRealm, har] at hrealm
    simp only [onHello, ht, har, preauthRealm, preauthAuthextra]
    split
    · rw [hrealm]
      by_cases hrole : ∃ r ∈ rlm.roles, t.authrole = some r
      · simp [hrole]
      · simp [hrole]
    · rename_i hcond
      exact absurd ⟨haid, hm⟩ hcond
  | some ar =>
    by_cases hc : "cookie" ∈ effectiveAuthmethods details.authmethods
    · simp only [preauthRealm, har, if_pos hc] at hrealm
      simp only [onHello, ht, har, preauthRealm, preauthAuthextra, if_pos hc]
      split
      · rw [hrealm]
        by_cases hrole : ∃ r ∈ rlm.roles, t.authrole = some r
        · simp [hrole]
        · simp [hrole]
      · rename_i hcond
        exact absurd ⟨haid, hm⟩ hcond
    · have hp : ¬ (t.authprovider = some "cookie") := by
        rcases hnorevoke with h | h | h
        · rw [har] at h
          exact Option.noConfusion h
        · exact absurd h hc
        · exact h
      simp only [preauthRealm, har, if_neg hc] at hrealm
      simp only [onHello, ht, har, preauthRealm, preauthAuthextra, if_neg hc, if_neg hp]
      split
      · rw [hrealm]
        by_cases hrole : ∃ r ∈ rlm.roles, t.authrole = some r
        · simp [hrole]
        · simp [hrole]
      · rename_i hcond
        exact absurd ⟨haid, hm⟩ hcond

/-- C6 witness: `transportPreauth` (alice, trusted, provider cookie,
reassigned auth realm `realm1`) with `cookie` offered: the preamble restores
the realm from the transport and the pre-auth path accepts alice with
exactly the transport's stored fields on the effective realm `realm1`. -/
theorem c6_preauth_witness :
    (onHello sessionPreauth (some "otherrealm") ⟨some ["cookie"], none⟩).1 =
      (if ∃ r ∈ (⟨["anonymous", "admin"], true, none⟩ : Realm).roles,
          transportPreauth.authrole = some r then
        .accept ⟨preauthRealm transportPreauth (some "otherrealm")
            (effectiveAuthmethods (some ["cookie"])),
          transportPreauth.authid, transportPreauth.authrole,
          transportPreauth.authmethod, transportPreauth.authprovider,
          preauthAuthextra transportPreauth ⟨some ["cookie"], none⟩
            (effectiveAuthmethods (some ["cookie"]))⟩
      else
        .deny "wamp.error.no_such_role"
          (some "session was previously authenticated (via transport), but role no longer exists on realm")) :=
  c6_preauth_accept_or_no_such_role sessionPreauth transportPreauth
    (some "otherrealm") ⟨some ["cookie"], none⟩ ⟨["anonymous", "admin"], true, none⟩
    rfl rfl (Or.inr (Or.inl (by decide))) (Or.inl rfl) rfl

/-- C8 counterexample: HELLO naming the realm `nope`, which does not exist
on the router, with offered authmethods `["ticket"]` and no authentication
configured: the claim predicts Deny `wamp.error.no_such_realm`, but the code
checks the anonymous-willingness first and returns Deny
`wamp.error.no_auth_method` without ever examining the realm. -/
theorem c8_unknown_realm_counterexample :
    realmLookup session1.factory (some "nope") = none ∧
    (onHello session1 (some "nope") ⟨some ["ticket"], none⟩).1 =
      .deny "wamp.error.no_auth_method"
        (some "cannot authenticate [1] using any of the offered authmethods") :=
  ⟨rfl, rfl⟩

/-- C8 (amended): in the unconfigured-authentication path (no `auth`
transport configuration, a transport without pre-authentication, and
`anonymous` among the effective authmethods), every HELLO naming a realm
that does not exist on the router — or naming no realm at all — is denied
with reason `wamp.error.no_such_realm`. -/
theorem c8_unconfigured_unknown_realm_denied (s : Session) (t : Transport)
    (realm0 : Option String) (details : HelloInfo)
    (ht : s.transport = some t) (haid : t.authid = none) (har : t.authrealm = none)
    (hcfg : s.transport_config_auth = [])
    (hanon : "anonymous" ∈ effectiveAuthmethods details.authmethods)
    (hrealm : realmLookup s.factory realm0 = none) :
    ∃ m, (onHello s realm0 details).1 = .deny "wamp.error.no_such_realm" m := by
  simp only [onHello, ht, har, haid, hcfg]
  cases hr0 : realm0 with
  | none => simp [hanon]
  | some r =>
    have : lookupKey s.factory.realms r = none := by
      simpa [realmLookup, hr0] using hrealm
    simp [hanon, this]

/-- C8 witness: the fresh `session1` receives HELLO for the unknown realm
`nope` offering anonymous and is denied with `wamp.error.no_such_realm`. -/
theorem c8_unknown_realm_witness :
    ∃ m, (onHello session1 (some "nope") ⟨some ["anonymous"], none⟩).1 =
      .deny "wamp.error.no_such_realm" m :=
  c8_unconfigured_unknown_realm_denied session1 transport1 (some "nope")
    ⟨some ["anonymous"], none⟩ rfl rfl rfl rfl (by simp [effectiveAuthmethods]) rfl

/-- C7: round trip of cookie authentication. If a session on a transport
with cookie id `c` joins with an authmethod other than `cookie` (so that
`onJoin` records `setAuth(c, authid, authrole, authmethod, authextra,
realm)` in the cookie store), then a fresh HELLO on a transport presenting
the same `c` — with `cookie` among the offered authmethods, `cookie`
configured, and every offered method before `cookie` known but unconfigured
(so the loop reaches the cookie branch) — yields an `Accept` carrying the
identical identity: same realm, authid, authrole, authmethod and authextra,
with `authprovider = "cookie"`. -/
theorem c7_cookie_roundtrip (sA : Session) (tA : Transport) (d : SessionDetails)
    (c : String) (sB : Session) (tB : Transport) (realm0 : Option String)
    (details : HelloInfo)
    (hAt : sA.transport = some tA) (hAc : tA.cbtid = some c)
    (hAm : d.authmethod ≠ some "cookie")
    (hBt : sB.transport = some tB) (hBaid : tB.authid = none)
    (hBar : tB.authrealm = none) (hBh : tB.headers_cbtid = some c)
    (hstore : sB.cookiestore = (onJoin sA d).st.cookiestore)
    (hcfg : "cookie" ∈ sB.transport_config_auth)
    (hextra : "cookie" ∉ sB.factory.extra_auth_methods)
    (hmem : "cookie" ∈ effectiveAuthmethods details.authmethods)
    (hpre : ∀ m ∈ (effectiveAuthmethods details.authmethods).takeWhile
      (fun x => x != "cookie"), m ∈ AUTHMETHODS ∧ m ∉ sB.transport_config_auth) :
    (onHello sB realm0 details).1 =
      .accept ⟨sA.realm, d.authid, d.authrole, d.authmethod, some "cookie",
        some d.authextra⟩ := by
  have hget : sB.cookiestore.getAuth c =
      some ⟨d.authid, d.authrole, d.authmethod, sA.realm, some d.authextra⟩ := by
    rw [hstore, onJoin_cookiestore_setAuth sA d tA c hAt hAc hAm, getAuth_setAuth]
  have hne : ¬ (sB.transport_config_auth = []) := by
    intro h
    rw [h] at hcfg
    cases hcfg
  have hno : ¬ (tB.authid.isSome = true ∧ (tB.authmethod = some "trusted" ∨
      ∃ p ∈ effectiveAuthmethods details.authmethods, tB.authprovider = some p)) := by
    simp [hBaid]
  have hloop := authLoop_cookie_hit sB tB realm0
    (effectiveAuthmethods details.authmethods) c
    ⟨d.authid, d.authrole, d.authmethod, sA.realm, some d.authextra⟩
    hmem hpre hcfg hextra hBh hget
  simp only [onHello, hBt, hBar, if_neg hno, if_neg hne, hloop]

/-- C7 witness: `sessionJoinedCookie` joins with WAMP-CRA over cookie
`cbtid1`; a fresh session on `transportCookie2` presenting `cbtid1` with
`["cookie"]` offered is accepted with the identical identity. -/
theorem c7_cookie_witness :
    (onHello sessionHelloCookie (some "otherrealm") ⟨some ["cookie"], none⟩).1 =
      .accept ⟨some "realm1", some "alice", some "admin", some "wampcra",
        some "cookie", some [("k", some "v")]⟩ :=
  c7_cookie_roundtrip sessionJoinedCookie transportCookie sdAlice "cbtid1"
    sessionHelloCookie transportCookie2 (some "otherrealm") ⟨some ["cookie"], none⟩
    rfl rfl (by decide) rfl rfl rfl rfl rfl (by decide) (by decide) (by decide)
    (by decide)

/-- C1 counterexample: the claim says an `Accept` disposition from
`onHello`/`onAuthenticate` produces exactly one WELCOME; but if the
transport was lost while the future was in flight, the resolved `Accept`
produces no frame at all — zero WELCOME and zero ABORT for that HELLO. -/
theorem c1_accept_counterexample :
    (AuthResult.accept acceptAlice).isAccept = true ∧
    terminalCount (onAuthenticate_success sessionLost (.accept acceptAlice)).frames = 0 ∧
    terminalCount (onHello_success sessionLost (.accept acceptAlice)).frames = 0 :=
  ⟨rfl, rfl, rfl⟩

/-- C1 (amended): provided the transport is still attached when a
disposition resolves and accepted realms exist on the router, exactly one
WELCOME or exactly one ABORT is emitted for a HELLO: an `Accept` or `Deny`
disposition from `onHello` produces exactly one terminal frame (a WELCOME
resp. an ABORT), and a `Challenge` disposition produces no terminal frame
but the processing of the matching AUTHENTICATE then produces exactly one
terminal frame — never both kinds and never two, but zero if the transport
is gone by resolution time (see the counterexample). -/
theorem c1_exactly_one_terminal_response (s : Session) (res : AuthResult)
    (sig : String)
    (ht : s.transport.isSome = true)
    (hsid : s.session_id = none)
    (hacc : ∀ ai, res = .accept ai → (realmLookup s.factory ai.realm).isSome = true)
    (hOch : ∀ meth sg, (s.oracle.authenticateResult meth sg).isChallenge = false)
    (hOacc : ∀ meth sg ai, s.oracle.authenticateResult meth sg = .accept ai →
      (realmLookup s.factory ai.realm).isSome = true) :
    (res.isChallenge = false → terminalCount (onHello_success s res).frames = 1) ∧
    (res.isChallenge = true →
      terminalCount (onHello_success s res).frames = 0 ∧
      terminalCount (onMessage (onHello_success s res).st
        (.authenticate sig)).frames = 1) := by
  constructor
  · intro hch
    exact onHello_success_terminal s res ht hacc hch
  · intro hch
    cases res with
    | accept ai => simp [AuthResult.isChallenge] at hch
    | deny r m => simp [AuthResult.isChallenge] at hch
    | challenge meth =>
      obtain ⟨hfr, hst⟩ := onHello_success_challenge s meth ht
      constructor
      · rw [hfr]
        rfl
      · rw [hst]
        exact onMessage_authenticate_terminal s sig ht hsid hOch hOacc

/-- C1 witness: `sessionPending` receives a `Challenge` disposition (no
terminal frame, one CHALLENGE) and the subsequent AUTHENTICATE is resolved
by the denying verifier into exactly one terminal frame. -/
theorem c1_exactly_one_witness :
    ((AuthResult.challenge "wampcra").isChallenge = false →
      terminalCount (onHello_success sessionPending (.challenge "wampcra")).frames = 1) ∧
    ((AuthResult.challenge "wampcra").isChallenge = true →
      terminalCount (onHello_success sessionPending (.challenge "wampcra")).frames = 0 ∧
      terminalCount (onMessage (onHello_success sessionPending (.challenge "wampcra")).st
        (.authenticate "sig")).frames = 1) :=
  c1_exactly_one_terminal_response sessionPending (.challenge "wampcra") "sig"
    rfl rfl (fun _ h => AuthResult.noConfusion h) (fun _ _ => rfl)
    (fun _ _ _ h => AuthResult.noConfusion h)

end Crossbar
